import Mathlib

/-
Shallow embedding of go-libp2p p2p/protocol/identify/peer_loop.go.

The Go code is a per-peer identify-push handler.  Its external
collaborators (the idService, the host network, the peerstore, the
stream returned by NewStream) are modelled by an oracle `Env` whose
fields record what each external call returns during one execution:

  * `conns`           — Host.Network().ConnsToPeer(pid)
  * `identifyReady1`  — for openStream's own wait loop: whether the
                        select on IdentifyWait(c) fires before ctx.Done()
  * `identifyReady2`  — the same, for the wait loop inside
                        peerSupportsProtos (a later point in time, so an
                        independent oracle: the context may be cancelled
                        between the two passes)
  * `ctxErr`          — what ctx.Err() reports once the context is done
  * `peerstoreProtos` — Peerstore().SupportsProtocols is modelled from
                        the peer's known protocol list: the call returns
                        the intersection of that list with the query, or
                        a lookup error
  * `newStreamResult` — Host.NewStream: a stream id or an opaque error
  * `writeResult`     — writeChunkedIdentifyMsg: ok or an opaque error
  * `currentSnapshot` — ids.getSnapshot()

Side effects on the shared world (semaphore slots, the NewStream call
with its context decorations, writes, Reset/Close on the stream) are
recorded in an event trace, so that claims about "no stream opened",
"released exactly once", "aborted via Reset" are statements about the
trace.  The handler's own mutable state (the Go struct peerHandler) is
threaded explicitly.  The snapshotMu lock is not modelled: the embedding
is sequential, and the claims about the lock reduce to when the store of
`snapshot` happens relative to the write attempt, which the trace and
the returned state capture.
-/

namespace PeerLoop

/-- The identify-push protocol identifier (constant IDPush of the
identify package; defined outside this file's source slice). -/
def IDPush : String := "/ipfs/id/push/1.0.0"

/-- A multiaddress, opaque to this subsystem. -/
structure Multiaddr where
  addr : String
deriving DecidableEq, Repr

/-- identifySnapshot: the local node's advertised protocols, listen
addresses and optional signed record. -/
structure identifySnapshot where
  protocols : List String
  addrs : List Multiaddr
  record : Option Nat
deriving DecidableEq, Repr

/-- What ctx.Err() returns for a done context. -/
inductive CtxErr
  | canceled
  | deadlineExceeded
deriving DecidableEq, Repr

/-- Go error values observable from this code.  The sentinel
errProtocolNotSupported is its own constructor; errors produced by the
collaborators (NewStream, writeChunkedIdentifyMsg) are opaque payloads
under distinct constructors, so the Go pointer-identity comparison
`err == errProtocolNotSupported` is faithfully an equality test on the
constructor.  `wrap msg e` is fmt.Errorf("msg: %w", e). -/
inductive GoError
  | protocolNotSupported
  | ctx (e : CtxErr)
  | streamErr (code : Nat)
  | writeErr (code : Nat)
  | wrap (msg : String) (e : GoError)
deriving DecidableEq, Repr

/-- Observable effects on the shared world, in execution order. -/
inductive Event
  | acquireSemaphore
  | releaseSemaphore
  | newStream (protos : List String) (timeoutSecs : Nat) (noDial : Bool)
  | writeMsg (snap : identifySnapshot)
  | resetStream (s : Nat)
  | closeStream (s : Nat)
deriving DecidableEq, Repr

/-- Oracle for one execution: what each external call returns. -/
structure Env where
  conns : List Nat
  identifyReady1 : Nat → Bool
  identifyReady2 : Nat → Bool
  ctxErr : CtxErr
  peerstoreProtos : Except Unit (List String)
  newStreamResult : Except Nat Nat
  writeResult : Except Nat Unit
  currentSnapshot : identifySnapshot

/-- ids.getSnapshot(). -/
def Env.getSnapshot (env : Env) : identifySnapshot :=
  env.currentSnapshot

/-- The Go struct peerHandler: peer id, the stored context.CancelFunc
(modelled as the boolean "a cancel function is set"), the last sent
snapshot, and the coalescing push channel with its capacity. -/
structure peerHandler where
  pid : Nat
  cancel : Bool
  snapshot : identifySnapshot
  pushChCap : Nat
  pushCh : List Unit
deriving DecidableEq, Repr

/-- newPeerHandler: pre-populates the snapshot from ids.getSnapshot()
and allocates the push channel with `make(chan struct\x7b\x7d, 1)`. -/
def newPeerHandler (pid : Nat) (env : Env) : peerHandler :=
  { pid := pid
    cancel := false
    snapshot := env.getSnapshot
    pushChCap := 1
    pushCh := [] }

/-- start: panics ("peer handler already running") when a cancel
function is already stored; otherwise stores the child context's cancel
function and launches the loop.  The panic is modelled as the .error
branch of Except (Go start itself returns nothing). -/
def start (ph : peerHandler) : Except String peerHandler :=
  if ph.cancel then .error "peer handler already running"
  else .ok { ph with cancel := true }

/-- stop: calls the stored cancel function when one exists and clears
it; always returns nil. -/
def stop (ph : peerHandler) : Option GoError × peerHandler :=
  (none, { ph with cancel := false })

/-- The wait loops over ConnsToPeer: for each connection in order,
select on IdentifyWait(c) versus ctx.Done(); returns false as soon as
the ctx.Done() branch is taken for some connection. -/
def waitAllIdentify (ready : Nat → Bool) : List Nat → Bool
  | [] => true
  | c :: cs => if ready c then waitAllIdentify ready cs else false

/-- pstore.SupportsProtocols(pid, protos...): the subset of `protos`
the peer is known to support, or a lookup error. -/
def supportsProtocols (env : Env) (protos : List String) : Except Unit (List String) :=
  match env.peerstoreProtos with
  | .error e => .error e
  | .ok known => .ok (protos.filter (fun p => known.contains p))

/-- peerSupportsProtos: waits for IdentifyWait on every connection
(returning false if the context is done first), then returns false only
when the peerstore lookup succeeds with an empty intersection. -/
def peerSupportsProtos (env : Env) (protos : List String) : Bool :=
  if waitAllIdentify env.identifyReady2 env.conns then
    match supportsProtocols env protos with
    | .ok sup => if sup.isEmpty then false else true
    | .error _ => true
  else false

/-- openStream: waits for IdentifyWait on every connection (returning
ctx.Err() if the context is done first), checks protocol support
(returning errProtocolNotSupported on failure), then acquires the push
semaphore, calls NewStream under a 30-second timeout with the no-dial
option, and releases the semaphore (deferred) before returning. -/
def openStream (env : Env) (protos : List String) : Except GoError Nat × List Event :=
  if waitAllIdentify env.identifyReady1 env.conns then
    if peerSupportsProtos env protos then
      match env.newStreamResult with
      | .ok s =>
          (.ok s, [.acquireSemaphore, .newStream protos 30 true, .releaseSemaphore])
      | .error code =>
          (.error (.streamErr code),
           [.acquireSemaphore, .newStream protos 30 true, .releaseSemaphore])
    else (.error .protocolNotSupported, [])
  else (.error (.ctx env.ctxErr), [])

/-- sendPush: opens a stream for IDPush; errProtocolNotSupported is a
benign no-op (nil error); any other open error is wrapped and returned.
On success it fetches the current snapshot, stores it as the handler's
snapshot, then writes it; a write failure resets the stream and returns
a wrapped error; the deferred Close runs on every post-open path. -/
def sendPush (env : Env) (ph : peerHandler) :
    Except GoError Unit × peerHandler × List Event :=
  match openStream env [IDPush] with
  | (.error .protocolNotSupported, tr) => (.ok (), ph, tr)
  | (.error e, tr) => (.error (.wrap "failed to open push stream" e), ph, tr)
  | (.ok s, tr) =>
      let snapshot := env.getSnapshot
      let ph := { ph with snapshot := snapshot }
      match env.writeResult with
      | .error code =>
          (.error (.wrap "failed to send push message" (.writeErr code)),
           ph, tr ++ [.writeMsg snapshot, .resetStream s, .closeStream s])
      | .ok _ =>
          (.ok (), ph, tr ++ [.writeMsg snapshot, .closeStream s])

/-! Concrete snapshots, handlers and oracles used by the witnesses. -/

def snapA : identifySnapshot :=
  { protocols := ["x"], addrs := [{ addr := "a1" }], record := none }

def snapB : identifySnapshot :=
  { protocols := ["x", "y"], addrs := [{ addr := "a1" }, { addr := "a2" }], record := some 5 }

def phA : peerHandler :=
  { pid := 1, cancel := false, snapshot := snapA, pushChCap := 1, pushCh := [] }

/-- Peer does not support the push protocol (lookup succeeds, empty intersection). -/
def envNS : Env :=
  { conns := [0]
    identifyReady1 := fun _ => true
    identifyReady2 := fun _ => true
    ctxErr := .canceled
    peerstoreProtos := .ok []
    newStreamResult := .ok 7
    writeResult := .ok ()
    currentSnapshot := snapB }

/-- Peer supports the push protocol, negotiation succeeds, the write fails. -/
def envOK : Env :=
  { conns := [0]
    identifyReady1 := fun _ => true
    identifyReady2 := fun _ => true
    ctxErr := .canceled
    peerstoreProtos := .ok [IDPush]
    newStreamResult := .ok 7
    writeResult := .error 3
    currentSnapshot := snapB }

/-- Context cancelled during openStream's own identify-completion wait. -/
def envCancel1 : Env :=
  { conns := [0]
    identifyReady1 := fun _ => false
    identifyReady2 := fun _ => false
    ctxErr := .canceled
    peerstoreProtos := .ok [IDPush]
    newStreamResult := .ok 7
    writeResult := .ok ()
    currentSnapshot := snapB }

/-- Context cancelled between openStream's wait pass and the wait pass
inside peerSupportsProtos. -/
def envCancel2 : Env :=
  { conns := [0]
    identifyReady1 := fun _ => true
    identifyReady2 := fun _ => false
    ctxErr := .canceled
    peerstoreProtos := .ok [IDPush]
    newStreamResult := .ok 7
    writeResult := .ok ()
    currentSnapshot := snapB }

/-- Peerstore lookup fails (and the waits complete). -/
def envErr : Env :=
  { conns := [0]
    identifyReady1 := fun _ => true
    identifyReady2 := fun _ => true
    ctxErr := .canceled
    peerstoreProtos := .error ()
    newStreamResult := .ok 7
    writeResult := .ok ()
    currentSnapshot := snapB }

/-! Helper lemmas (shared). -/

/-- Exhaustive case analysis of openStream. -/
theorem openStream_spec (env : Env) (protos : List String) :
    (waitAllIdentify env.identifyReady1 env.conns = false ∧
       openStream env protos = (.error (.ctx env.ctxErr), [])) ∨
    (waitAllIdentify env.identifyReady1 env.conns = true ∧
       peerSupportsProtos env protos = false ∧
       openStream env protos = (.error .protocolNotSupported, [])) ∨
    (waitAllIdentify env.identifyReady1 env.conns = true ∧
       peerSupportsProtos env protos = true ∧
       ((∃ s, env.newStreamResult = .ok s ∧
           openStream env protos =
             (.ok s, [.acquireSemaphore, .newStream protos 30 true, .releaseSemaphore])) ∨
        (∃ c, env.newStreamResult = .error c ∧
           openStream env protos =
             (.error (.streamErr c),
              [.acquireSemaphore, .newStream protos 30 true, .releaseSemaphore])))) := by
  unfold openStream
  cases hw : waitAllIdentify env.identifyReady1 env.conns
  · left
    simp
  · cases hp : peerSupportsProtos env protos
    · right; left
      simp
    · right; right
      refine ⟨rfl, rfl, ?_⟩
      cases hns : env.newStreamResult with
      | ok s => exact .inl ⟨s, rfl, by simp⟩
      | error c => exact .inr ⟨c, rfl, by simp⟩

/-- When openStream reports the sentinel, its whole result (trace
included) is pinned down. -/
theorem openStream_notSupported_eq (env : Env) (protos : List String)
    (h : (openStream env protos).1 = .error .protocolNotSupported) :
    openStream env protos = (.error .protocolNotSupported, []) := by
  rcases openStream_spec env protos with ⟨_, he⟩ | ⟨_, _, he⟩ |
      ⟨_, _, ⟨s, _, he⟩ | ⟨c, _, he⟩⟩ <;> rw [he] at h ⊢ <;> simp_all

/-- When openStream succeeds, its whole result is pinned down. -/
theorem openStream_ok_eq (env : Env) (protos : List String) (s : Nat)
    (h : (openStream env protos).1 = .ok s) :
    openStream env protos =
      (.ok s, [.acquireSemaphore, .newStream protos 30 true, .releaseSemaphore]) := by
  rcases openStream_spec env protos with ⟨_, he⟩ | ⟨_, _, he⟩ |
      ⟨_, _, ⟨t, _, he⟩ | ⟨c, _, he⟩⟩ <;> rw [he] at h ⊢ <;> simp_all

/-! Claim theorems. -/

/-- C1: whenever openStream reports the protocol-not-supported sentinel,
sendPush returns success (nil error), the handler state (in particular
lastSentSnapshot) is unchanged, and the trace is empty: no semaphore
slot, no stream, no write. -/
theorem sendPush_notSupported_benign (env : Env) (ph : peerHandler)
    (h : (openStream env [IDPush]).1 = .error .protocolNotSupported) :
    sendPush env ph = (.ok (), ph, []) := by
  have hopen := openStream_notSupported_eq env [IDPush] h
  unfold sendPush
  rw [hopen]

/-- Witness for C1: a peer whose peerstore entry has no overlap with
the push protocol. -/
theorem sendPush_notSupported_benign_witness :
    (openStream envNS [IDPush]).1 = .error .protocolNotSupported ∧
    sendPush envNS phA = (.ok (), phA, []) :=
  ⟨rfl, sendPush_notSupported_benign envNS phA rfl⟩

/-- C2: whenever openStream succeeds, sendPush stores the service's
current snapshot as the handler's lastSentSnapshot, and the write that
follows carries exactly that snapshot — so the snapshot is updated even
on executions whose write fails. -/
theorem sendPush_updates_snapshot (env : Env) (ph : peerHandler) (s : Nat)
    (h : (openStream env [IDPush]).1 = .ok s) :
    (sendPush env ph).2.1.snapshot = env.getSnapshot ∧
    Event.writeMsg env.getSnapshot ∈ (sendPush env ph).2.2 := by
  have hopen := openStream_ok_eq env [IDPush] s h
  unfold sendPush
  rw [hopen]
  cases hwr : env.writeResult <;> simp

/-- Witness for C2: negotiation yields stream 7 and the write fails,
yet the snapshot is updated. -/
theorem sendPush_updates_snapshot_witness :
    (openStream envOK [IDPush]).1 = .ok 7 ∧
    envOK.writeResult = .error 3 ∧
    (sendPush envOK phA).2.1.snapshot = envOK.getSnapshot :=
  ⟨rfl, rfl, (sendPush_updates_snapshot envOK phA 7 rfl).1⟩

/-- C3: if the context is cancelled while openStream is blocked in its
own identify-completion wait loop, openStream returns the context's
error — not any other error, not a stream — and its trace is empty. -/
theorem openStream_cancelled_wait (env : Env) (protos : List String)
    (h : waitAllIdentify env.identifyReady1 env.conns = false) :
    openStream env protos = (.error (.ctx env.ctxErr), []) := by
  unfold openStream
  rw [h]
  simp

/-- Witness for C3: one connection whose identify-completion never
fires before the cancellation. -/
theorem openStream_cancelled_wait_witness :
    waitAllIdentify envCancel1.identifyReady1 envCancel1.conns = false ∧
    openStream envCancel1 [IDPush] = (.error (.ctx .canceled), []) :=
  ⟨rfl, openStream_cancelled_wait envCancel1 [IDPush] rfl⟩

/-- C4 counterexample: with the context cancelled during the wait
inside peerSupportsProtos, the peerstore lookup reports an error and yet
the function returns false — refuting "a lookup error yields true" and
"false only when the lookup succeeds with an empty intersection". -/
theorem peerSupportsProtos_cancel_counterexample :
    supportsProtocols { envErr with identifyReady2 := fun _ => false } [IDPush] = .error () ∧
    peerSupportsProtos { envErr with identifyReady2 := fun _ => false } [IDPush] = false :=
  ⟨rfl, rfl⟩

/-- C4 (amended): when all identify-completion waits finish without
cancellation, a peerstore lookup error yields true (fail open), and the
function returns false exactly when the lookup succeeds and the
intersection with the acceptable set is empty.  (If the context is
cancelled during the wait, the function returns false regardless of the
lookup — see the counterexample.) -/
theorem peerSupportsProtos_failOpen (env : Env) (protos : List String)
    (hw : waitAllIdentify env.identifyReady2 env.conns = true) :
    (∀ e, env.peerstoreProtos = .error e → peerSupportsProtos env protos = true) ∧
    (peerSupportsProtos env protos = false ↔ supportsProtocols env protos = .ok []) := by
  unfold peerSupportsProtos
  rw [hw]
  constructor
  · intro e he
    unfold supportsProtocols
    rw [he]
    simp
  · cases hs : supportsProtocols env protos with
    | error e => simp
    | ok sup => cases sup <;> simp

/-- Witness for C4: the waits complete and the lookup errors, so the
check fails open (returns true). -/
theorem peerSupportsProtos_failOpen_witness :
    waitAllIdentify envErr.identifyReady2 envErr.conns = true ∧
    envErr.peerstoreProtos = .error () ∧
    peerSupportsProtos envErr [IDPush] = true :=
  ⟨rfl, rfl, (peerSupportsProtos_failOpen envErr [IDPush] rfl).1 () rfl⟩

/-- C5: when a stream was opened and the chunked write fails, the
stream is aborted via Reset and sendPush returns a non-nil error
wrapping the write failure. -/
theorem sendPush_writeFailure_resets (env : Env) (ph : peerHandler) (s code : Nat)
    (hs : (openStream env [IDPush]).1 = .ok s)
    (hw : env.writeResult = .error code) :
    (sendPush env ph).1 =
      .error (.wrap "failed to send push message" (.writeErr code)) ∧
    Event.resetStream s ∈ (sendPush env ph).2.2 := by
  have hopen := openStream_ok_eq env [IDPush] s hs
  unfold sendPush
  rw [hopen]
  simp [hw]

/-- Witness for C5: stream 7 opens and the write fails with code 3. -/
theorem sendPush_writeFailure_resets_witness :
    (openStream envOK [IDPush]).1 = .ok 7 ∧
    envOK.writeResult = .error 3 ∧
    (sendPush envOK phA).1 =
      .error (.wrap "failed to send push message" (.writeErr 3)) ∧
    Event.resetStream 7 ∈ (sendPush envOK phA).2.2 :=
  ⟨rfl, rfl,
    (sendPush_writeFailure_resets envOK phA 7 3 rfl rfl).1,
    (sendPush_writeFailure_resets envOK phA 7 3 rfl rfl).2⟩

/-- C6: in every execution of openStream the semaphore is acquired at
most once, acquisitions and releases balance exactly (no leak, no
double release, on success, negotiation-error and timeout paths alike),
and a slot is acquired only in executions where the protocol-support
check succeeded. -/
theorem openStream_semaphore_discipline (env : Env) (protos : List String) :
    (openStream env protos).2.count Event.acquireSemaphore =
      (openStream env protos).2.count Event.releaseSemaphore ∧
    (openStream env protos).2.count Event.acquireSemaphore ≤ 1 ∧
    (Event.acquireSemaphore ∈ (openStream env protos).2 →
      peerSupportsProtos env protos = true) := by
  rcases openStream_spec env protos with ⟨_, he⟩ | ⟨_, hp, he⟩ |
      ⟨_, hp, ⟨s, _, he⟩ | ⟨c, _, he⟩⟩ <;> rw [he]
  · simp
  · simp
  · simp [List.count_cons, hp]
  · simp [List.count_cons, hp]

/-- Witness for C6: a run that reaches negotiation; the inner
hypothesis (a slot was acquired) is discharged concretely. -/
theorem openStream_semaphore_discipline_witness :
    (openStream envOK [IDPush]).2.count Event.acquireSemaphore =
      (openStream envOK [IDPush]).2.count Event.releaseSemaphore ∧
    peerSupportsProtos envOK [IDPush] = true :=
  ⟨(openStream_semaphore_discipline envOK [IDPush]).1,
   (openStream_semaphore_discipline envOK [IDPush]).2.2 (by decide)⟩

/-- C7: every NewStream call openStream makes uses exactly the supplied
protocol list, a 30-second timeout, and the no-dial option. -/
theorem openStream_negotiation_params (env : Env) (protos ps : List String)
    (t : Nat) (nd : Bool)
    (h : Event.newStream ps t nd ∈ (openStream env protos).2) :
    ps = protos ∧ t = 30 ∧ nd = true := by
  rcases openStream_spec env protos with ⟨_, he⟩ | ⟨_, _, he⟩ |
      ⟨_, _, ⟨s, _, he⟩ | ⟨c, _, he⟩⟩ <;> rw [he] at h <;> simp_all

/-- Witness for C7: the run through envOK performs a NewStream call,
and its parameters are the supplied list, 30 and no-dial. -/
theorem openStream_negotiation_params_witness :
    Event.newStream [IDPush] 30 true ∈ (openStream envOK [IDPush]).2 ∧
    ([IDPush] = [IDPush] ∧ 30 = 30 ∧ true = true) :=
  ⟨by decide,
   openStream_negotiation_params envOK [IDPush] [IDPush] 30 true (by decide)⟩

/-- C8: start on a running handler (cancel control set) panics rather
than returning an error; stop on a handler in any state returns nil, is
idempotent, and clears the cancel control so a subsequent start
succeeds. -/
theorem lifecycle_start_stop (ph : peerHandler) :
    (ph.cancel = true → start ph = .error "peer handler already running") ∧
    (stop ph).1 = none ∧
    stop (stop ph).2 = stop ph ∧
    (stop ph).2.cancel = false ∧
    start (stop ph).2 = .ok { ph with cancel := true } := by
  refine ⟨fun h => ?_, rfl, rfl, rfl, ?_⟩ <;> simp [start, stop, *]

/-- Witness for C8: a running handler, with the double-start hypothesis
discharged concretely. -/
theorem lifecycle_start_stop_witness :
    start { phA with cancel := true } = .error "peer handler already running" ∧
    (stop { phA with cancel := true }).1 = none ∧
    start (stop { phA with cancel := true }).2 =
      .ok { phA with cancel := true } :=
  ⟨(lifecycle_start_stop { phA with cancel := true }).1 rfl,
   (lifecycle_start_stop { phA with cancel := true }).2.1,
   (lifecycle_start_stop { phA with cancel := true }).2.2.2.2⟩

/-- C9: newPeerHandler pre-populates lastSentSnapshot with the
service's current snapshot and allocates the coalescing push channel
with capacity exactly 1. -/
theorem newPeerHandler_init (pid : Nat) (env : Env) :
    (newPeerHandler pid env).snapshot = env.getSnapshot ∧
    (newPeerHandler pid env).pushChCap = 1 :=
  ⟨rfl, rfl⟩

/-- C10: if the context is cancelled while peerSupportsProtos is in its
identify-completion wait (after openStream's own wait pass completed),
peerSupportsProtos returns false, openStream maps this to the
protocol-not-supported sentinel, and sendPush returns success. -/
theorem sendPush_cancel_during_support_check (env : Env) (ph : peerHandler)
    (h1 : waitAllIdentify env.identifyReady1 env.conns = true)
    (h2 : waitAllIdentify env.identifyReady2 env.conns = false) :
    peerSupportsProtos env [IDPush] = false ∧
    openStream env [IDPush] = (.error .protocolNotSupported, []) ∧
    (sendPush env ph).1 = .ok () := by
  have hp : peerSupportsProtos env [IDPush] = false := by
    unfold peerSupportsProtos
    rw [h2]
    simp
  have ho : openStream env [IDPush] = (.error .protocolNotSupported, []) := by
    unfold openStream
    rw [h1, hp]
    simp
  refine ⟨hp, ho, ?_⟩
  unfold sendPush
  rw [ho]

/-- Witness for C10: cancellation lands between the two wait passes. -/
theorem sendPush_cancel_during_support_check_witness :
    waitAllIdentify envCancel2.identifyReady1 envCancel2.conns = true ∧
    waitAllIdentify envCancel2.identifyReady2 envCancel2.conns = false ∧
    (sendPush envCancel2 phA).1 = .ok () :=
  ⟨rfl, rfl,
   (sendPush_cancel_during_support_check envCancel2 phA rfl rfl).2.2⟩

end PeerLoop
